import Mathlib

/-!
ACL server glue of `agent/consul/acl_server.go`

A shallow embedding of the functions of `acl_server.go`:

* `checkTokenUUID`, `checkPolicyUUID` (identifier availability),
* `updateACLAdvertisement` (gossip tag publication),
* `monitorACLMode` (the legacy-to-new upgrade loop),
* `InACLDatacenter`, `UseLegacyACLs`, `ResolveIdentityFromToken`,
  `ResolvePolicyFromID`.

Code the file calls but does not contain (the state store, the serf member
parser `metadata.IsConsulServer`, `ServersMeetMinimumVersion`,
`structs.ACLIDReserved`, `initializeACLs`) is taken as a parameter, bundled in
`Deps` or in the store `State`.  Whatever the loop reads from the outside in
one iteration (member lists, leadership, readiness, raft leader, which branch
of the final `select` fires) is an `Observation`.
-/

namespace Consul

/-! ## Data model -/

/-- Go `error` values; `none` plays the part of `nil`. -/
abbrev Error := String

/-- The type `structs.ACLMode`, a Go string type. -/
abbrev ACLMode := String

/-- Modelled from the spec: the constant `structs.ACLModeEnabled`, whose
declaration is outside the file; the spec gives the tag values as
`disabled`, `legacy`, `enabled`. -/
def ACLModeEnabled : ACLMode := "enabled"

/-- Modelled from the spec: the tag value `legacy` of the gossip tag protocol
(the constant `structs.ACLModeLegacy` is declared outside the file). -/
def ACLModeLegacy : ACLMode := "legacy"

/-- The type `serf.MemberStatus`. -/
inductive MemberStatus where
  | StatusNone
  | StatusAlive
  | StatusLeaving
  | StatusLeft
  | StatusFailed
  deriving DecidableEq, Repr

/-- The fields of `serf.Member` the file reads: the member is handed to
`metadata.IsConsulServer` as a whole and its `Addr` is read directly; `Addr`
is the textual form of the `net.IP`. -/
structure Member where
  Name : String
  Addr : String
  Tags : List (String × String)
  Status : MemberStatus
  deriving DecidableEq, Repr

/-- The type `version.Version` as its numeric segments. -/
abbrev Version := List Nat

/-- The fields of `metadata.Server` (the `parts` of `IsConsulServer`) the
file reads, and `Build`, which `ServersMeetMinimumVersion` is given. -/
structure ServerParts where
  Datacenter : String
  Port : Nat
  ACLs : ACLMode
  Status : MemberStatus
  Build : Version
  deriving DecidableEq, Repr

/-- The type `structs.ACLToken`, by its two identifiers. -/
structure ACLToken where
  AccessorID : String
  SecretID : String
  deriving DecidableEq, Repr

/-- The type `structs.ACLPolicy`, by its identifier and name. -/
structure ACLPolicy where
  ID : String
  Name : String
  deriving DecidableEq, Repr

/-- The state store as `s.fsm.State()` exposes it to this file: the three
queries, each returning the Go triple `(index, record, err)`; a `nil` record
or error is `none`.  The watch set argument is always `nil` in the file and is
left out. -/
structure State where
  ACLTokenGetByAccessor : String → Nat × Option ACLToken × Option Error
  ACLTokenGetBySecret : String → Nat × Option ACLToken × Option Error
  ACLPolicyGetByID : String → Nat × Option ACLPolicy × Option Error

/-- Functions of the repository that the file calls and does not define. -/
structure Deps where
  /-- The function `metadata.IsConsulServer`: `none` is `(false, nil)`, `some parts` is
  `(true, parts)`. -/
  IsConsulServer : Member → Option ServerParts
  /-- The function `ServersMeetMinimumVersion(members, minVersion)`. -/
  ServersMeetMinimumVersion : List Member → Version → Bool
  /-- The function `structs.ACLIDReserved`. -/
  ACLIDReserved : String → Bool
  /-- The effect of `s.initializeACLs()` on the state store (its returned
  error is dropped by the caller). -/
  initializeACLs : State → State

/-- The type `Config`, by the two fields the file reads. -/
structure Config where
  Datacenter : String
  ACLDatacenter : String
  deriving DecidableEq, Repr

/-- The tags of the local member of a serf pool, a Go `map[string]string`. -/
abbrev Tags := String → Option String

/-- The state-changing calls of `monitorACLMode`, recorded in program order. -/
inductive Event where
  | setUseNewACLs
  | initializeACLs
  | updateACLAdvertisement
  deriving DecidableEq, Repr

/-- The fields of `Server` the file touches.  `events` is a history variable: every
state-changing call of `monitorACLMode` appends its name. -/
structure Server where
  config : Config
  fsm : State
  useNewACLs : Bool
  serfLAN : Tags
  serfWAN : Tags
  events : List Event

/-- What one iteration of the loop of `monitorACLMode` reads from outside the
server value. `shutdown` tells which case of the final `select` fires:
`true` for `<-s.shutdownCh`, `false` for the timer. `raftLeader` is
`string(s.raft.Leader())`, empty when no leader is known. -/
structure Observation where
  WANMembers : List Member
  LANMembers : List Member
  IsLeader : Bool
  isReadyForConsistentReads : Bool
  raftLeader : String
  shutdown : Bool

/-! ## Small library functions -/

/-- The function `net.JoinHostPort`: a host holding a colon or a percent sign is put in
brackets. -/
def JoinHostPort (host port : String) : String :=
  if host.toList.contains ':' || host.toList.contains '%' then
    "[" ++ host ++ "]:" ++ port
  else
    host ++ ":" ++ port

/-- The expression `(&net.TCPAddr{IP: ip, Port: port}).String()` with an empty zone. -/
def TCPAddrString (ip : String) (port : Nat) : String :=
  JoinHostPort ip (toString port)

/-- The function `lib.UpdateSerfTag` on the tags of the local member: `tags[key] = value`. -/
def UpdateSerfTag (tags : Tags) (key value : String) : Tags :=
  fun k => if k = key then some value else tags k

/-! ## The functions of `acl_server.go` -/

/-- Lines 138-140. -/
def InACLDatacenter (s : Server) : Bool :=
  s.config.Datacenter == s.config.ACLDatacenter

/-- Lines 142-144. -/
def UseLegacyACLs (s : Server) : Bool :=
  !s.useNewACLs

/-- Lines 33-48. -/
def checkTokenUUID (deps : Deps) (s : Server) (id : String) : Bool × Option Error :=
  let state := s.fsm
  match state.ACLTokenGetByAccessor id with
  | (_, _, some err) => (false, some err)
  | (_, some _, none) => (false, none)
  | (_, none, none) =>
    match state.ACLTokenGetBySecret id with
    | (_, _, some err) => (false, some err)
    | (_, some _, none) => (false, none)
    | (_, none, none) => (!deps.ACLIDReserved id, none)

/-- Lines 50-59. -/
def checkPolicyUUID (deps : Deps) (s : Server) (id : String) : Bool × Option Error :=
  let state := s.fsm
  match state.ACLPolicyGetByID id with
  | (_, _, some err) => (false, some err)
  | (_, some _, none) => (false, none)
  | (_, none, none) => (!deps.ACLIDReserved id, none)

/-- Lines 61-70. -/
def updateACLAdvertisement (s : Server) : Server :=
  let s1 := { s with serfLAN := UpdateSerfTag s.serfLAN "acls" ACLModeEnabled,
                     events := s.events ++ [Event.updateACLAdvertisement] }
  if InACLDatacenter s1 then
    { s1 with serfWAN := UpdateSerfTag s1.serfWAN "acls" ACLModeEnabled }
  else
    s1

/-- The call `s.useNewACLs.Set(true)`. -/
def setUseNewACLs (s : Server) : Server :=
  { s with useNewACLs := true, events := s.events ++ [Event.setUseNewACLs] }

/-- The call `s.initializeACLs()`: it works on the state store. -/
def initializeACLs (deps : Deps) (s : Server) : Server :=
  { s with fsm := deps.initializeACLs s.fsm, events := s.events ++ [Event.initializeACLs] }

/-- Lines 161-170. -/
def ResolveIdentityFromToken (s : Server) (token : String) :
    Bool × Option ACLToken × Option Error :=
  match s.fsm.ACLTokenGetBySecret token with
  | (_, _, some err) => (true, none, some err)
  | (_, some aclToken, none) => (true, some aclToken, none)
  | (_, none, none) => (s.config.ACLDatacenter == s.config.Datacenter, none, none)

/-- Lines 172-177. -/
def ResolvePolicyFromID (s : Server) (policyID : String) :
    Bool × Option ACLPolicy × Option Error :=
  match s.fsm.ACLPolicyGetByID policyID with
  | (_, policy, err) => (true, policy, err)

/-- The version `1.4.0` of line 73. -/
def minVersion : Version := [1, 4, 0]

/-- Lines 81-94: the scan of the WAN members; the result is the value of
`canUpgrade` when the loop is left. -/
def scanWANMembers (deps : Deps) (aclDatacenter : String) : List Member → Bool
  | [] => true
  | member :: rest =>
    match deps.IsConsulServer member with
    | some parts =>
      if parts.Status = MemberStatus.StatusAlive then
        if parts.Datacenter ≠ aclDatacenter then
          scanWANMembers deps aclDatacenter rest
        else if parts.ACLs ≠ ACLModeEnabled then
          false
        else
          scanWANMembers deps aclDatacenter rest
      else
        scanWANMembers deps aclDatacenter rest
    | none => scanWANMembers deps aclDatacenter rest

/-- Lines 77-95: the value of `canUpgrade` at line 97. -/
def canUpgrade (deps : Deps) (s : Server) (o : Observation) : Bool :=
  if !InACLDatacenter s then
    scanWANMembers deps s.config.ACLDatacenter o.WANMembers
  else
    true

/-- Lines 112-124: the scan of the LAN members by a node that is not the
leader; `true` when lines 116-118 are reached, `false` when the loop is left
by `break` or by running out of members. -/
def scanLANMembers (deps : Deps) (leader : String) : List Member → Bool
  | [] => false
  | member :: rest =>
    match deps.IsConsulServer member with
    | some parts =>
      if parts.Status = MemberStatus.StatusAlive then
        if TCPAddrString member.Addr parts.Port = leader then
          if parts.ACLs = ACLModeEnabled then true else false
        else
          scanLANMembers deps leader rest
      else
        scanLANMembers deps leader rest
    | none => scanLANMembers deps leader rest

/-- How an iteration of the loop ends: `transitioned` is the `return` of
line 108 or 118, `shutdown` the `return` of line 131, `next` the timer case,
after which the loop runs again. -/
inductive Outcome where
  | transitioned
  | shutdown
  | next
  deriving DecidableEq, Repr

/-- The result of one iteration: the server values after each state-changing
call, in order (empty when there was none), and how the iteration ended. -/
structure IterResult where
  states : List Server
  outcome : Outcome

/-- Lines 128-134: the `select` at the end of an iteration. -/
def waitOrShutdown (o : Observation) : IterResult :=
  if o.shutdown then ⟨[], Outcome.shutdown⟩ else ⟨[], Outcome.next⟩

/-- Lines 76-134: one iteration of the loop of `monitorACLMode`. -/
def monitorACLModeIter (deps : Deps) (o : Observation) (s : Server) : IterResult :=
  if canUpgrade deps s o then
    if o.IsLeader then
      if o.isReadyForConsistentReads && deps.ServersMeetMinimumVersion o.LANMembers minVersion then
        let s1 := setUseNewACLs s
        let s2 := initializeACLs deps s1
        let s3 := updateACLAdvertisement s2
        ⟨[s1, s2, s3], Outcome.transitioned⟩
      else
        waitOrShutdown o
    else
      let leader := o.raftLeader
      if scanLANMembers deps leader o.LANMembers then
        let s1 := setUseNewACLs s
        let s2 := updateACLAdvertisement s1
        ⟨[s1, s2], Outcome.transitioned⟩
      else
        waitOrShutdown o
  else
    waitOrShutdown o

/-- The server value at the end of an iteration started from `s`. -/
def IterResult.final (r : IterResult) (s : Server) : Server :=
  r.states.getLast?.getD s

/-- Lines 75-135: the loop of `monitorACLMode` from server value `s`, run on the
observations of its successive iterations.  The result lists the server values
after each state-changing call, in order, and tells how the loop was left;
`none` when the observations ran out with the loop still going. -/
def monitorACLModeLoop (deps : Deps) : Server → List Observation → List Server × Option Outcome
  | _, [] => ([], none)
  | s, o :: os =>
    let r := monitorACLModeIter deps o s
    match r.outcome with
    | Outcome.next =>
      let rest := monitorACLModeLoop deps (r.final s) os
      (r.states ++ rest.1, rest.2)
    | out => (r.states, some out)

/-- Lines 72-136: `monitorACLMode`.  The result lists every server value the
run goes through, the starting one first, and how the run ended. -/
def monitorACLMode (deps : Deps) (s : Server) (obs : List Observation) :
    List Server × Option Outcome :=
  let r := monitorACLModeLoop deps s obs
  (s :: r.1, r.2)

/-! ## Concrete inputs used to exercise the definitions -/

/-- The value of a tag in a member's tag list. -/
def lookupTag (tags : List (String × String)) (key : String) : String :=
  match tags.find? (fun kv => kv.1 == key) with
  | some kv => kv.2
  | none => ""

/-- A member parser for the examples: a member is a server when its `role` tag is
`consul`; datacenter and ACL mode are read from the tags `dc` and `acls`. -/
def exampleIsConsulServer (m : Member) : Option ServerParts :=
  if lookupTag m.Tags "role" = "consul" then
    some { Datacenter := lookupTag m.Tags "dc", Port := 8300,
           ACLs := lookupTag m.Tags "acls", Status := m.Status, Build := [1, 4, 0] }
  else
    none

/-- A store without tokens and policies whose queries never fail. -/
def emptyState : State :=
  { ACLTokenGetByAccessor := fun _ => (0, none, none),
    ACLTokenGetBySecret := fun _ => (0, none, none),
    ACLPolicyGetByID := fun _ => (0, none, none) }

/-- Dependencies for the examples: every member list meets the minimum version, no
identifier is reserved, initialization leaves the store as it is. -/
def exampleDeps : Deps :=
  { IsConsulServer := exampleIsConsulServer,
    ServersMeetMinimumVersion := fun _ _ => true,
    ACLIDReserved := fun _ => false,
    initializeACLs := fun st => st }

/-- An alive server member for the examples. -/
def serverMember (name addr dc acls : String) : Member :=
  { Name := name, Addr := addr,
    Tags := [("role", "consul"), ("dc", dc), ("acls", acls)],
    Status := MemberStatus.StatusAlive }

/-- A server of datacenter `dc2` whose ACL datacenter is `dc1`, still on legacy ACLs and
with no tags set. -/
def dc2Server : Server :=
  { config := { Datacenter := "dc2", ACLDatacenter := "dc1" },
    fsm := emptyState, useNewACLs := false,
    serfLAN := fun _ => none, serfWAN := fun _ => none, events := [] }

/-- A server of the ACL datacenter `dc1`, still on legacy ACLs and with no tags set. -/
def dc1Server : Server :=
  { config := { Datacenter := "dc1", ACLDatacenter := "dc1" },
    fsm := emptyState, useNewACLs := false,
    serfLAN := fun _ => none, serfWAN := fun _ => none, events := [] }

/-- Three alive servers of the ACL datacenter `dc1`: two on `enabled`, one on `legacy`. -/
def threeWANMembers : List Member :=
  [serverMember "a" "10.0.0.1" "dc1" ACLModeEnabled,
   serverMember "b" "10.0.0.2" "dc1" ACLModeLegacy,
   serverMember "c" "10.0.0.3" "dc1" ACLModeEnabled]

/-- An observation with the three WAN members above, seen by a follower. -/
def holdoutObservation : Observation :=
  { WANMembers := threeWANMembers, LANMembers := [], IsLeader := false,
    isReadyForConsistentReads := false, raftLeader := "", shutdown := false }

/-! ## The WAN scan -/

/-- A WAN member that counts for `canUpgrade`: a valid server, alive, of the ACL
datacenter. -/
def countsForUpgrade (deps : Deps) (aclDatacenter : String) (m : Member) : Bool :=
  match deps.IsConsulServer m with
  | some parts => parts.Status = MemberStatus.StatusAlive && parts.Datacenter = aclDatacenter
  | none => false

/-- A LAN member the follower scan stops at: a valid server, alive, whose address
`IP:Port` is the raft leader address. -/
def isLeaderMember (deps : Deps) (leader : String) (m : Member) : Bool :=
  match deps.IsConsulServer m with
  | some parts =>
    parts.Status = MemberStatus.StatusAlive && TCPAddrString m.Addr parts.Port = leader
  | none => false

/-- The ACL mode advertised by the first LAN member that is a valid, alive server at
the raft leader address; `none` when there is no such member. -/
def leaderACLs (deps : Deps) (leader : String) (lan : List Member) : Option ACLMode :=
  match lan.find? (isLeaderMember deps leader) with
  | some m => (deps.IsConsulServer m).map (fun parts => parts.ACLs)
  | none => none

/-- The observation of a leader that can serve consistent reads, with an empty WAN and a
LAN holding only itself. -/
def leaderObservation : Observation :=
  { WANMembers := [], LANMembers := [serverMember "a" "10.0.0.1" "dc1" ACLModeLegacy],
    IsLeader := true, isReadyForConsistentReads := true,
    raftLeader := "10.0.0.1:8300", shutdown := false }

/-- The observation of a leader that cannot serve consistent reads yet. -/
def notReadyObservation : Observation :=
  { leaderObservation with isReadyForConsistentReads := false }

/-- The observation of a follower `b` whose leader `a` at `10.0.0.1:8300` advertises
`enabled`; the follower's own member entry comes first and is on `legacy`. -/
def followerObservation : Observation :=
  { WANMembers := [],
    LANMembers := [serverMember "b" "10.0.0.2" "dc1" ACLModeLegacy,
                   serverMember "a" "10.0.0.1" "dc1" ACLModeEnabled],
    IsLeader := false, isReadyForConsistentReads := false,
    raftLeader := "10.0.0.1:8300", shutdown := false }

/-- Dependencies for the examples in which the identifier
`00000000-0000-0000-0000-000000000001` is reserved. -/
def reservingDeps : Deps :=
  { exampleDeps with
    ACLIDReserved := fun id => id == "00000000-0000-0000-0000-000000000001" }

/-- A token for the examples. -/
def exampleToken : ACLToken :=
  { AccessorID := "accessor-1", SecretID := "secret-1" }

/-- A store holding `exampleToken` only, indexed by accessor and by secret. -/
def oneTokenState : State :=
  { emptyState with
    ACLTokenGetByAccessor := fun id =>
      if id = "accessor-1" then (1, some exampleToken, none) else (1, none, none),
    ACLTokenGetBySecret := fun secret =>
      if secret = "secret-1" then (1, some exampleToken, none) else (1, none, none) }

/-- A store all of whose queries fail with the same error. -/
def failingState : State :=
  { ACLTokenGetByAccessor := fun _ => (0, none, some "store unavailable"),
    ACLTokenGetBySecret := fun _ => (0, none, some "store unavailable"),
    ACLPolicyGetByID := fun _ => (0, none, some "store unavailable") }

/-- A store whose by-accessor query reports no match and whose by-secret query fails. -/
def secretFailingState : State :=
  { emptyState with
    ACLTokenGetBySecret := fun _ => (0, none, some "store unavailable") }

/-- Modelled from the spec: the comparison of a member's version with the minimum
version threshold (`Version.LessThan` of the version library), segment by
segment, a missing segment counting as zero. -/
def versionLessThan : Version → Version → Bool
  | [], [] => false
  | [], b :: bs => decide (0 < b) || versionLessThan [] bs
  | _ :: _, [] => false
  | a :: as, b :: bs => decide (a < b) || (decide (a = b) && versionLessThan as bs)

/-- Modelled from the spec: the function `ServersMeetMinimumVersion` of the package, whose
file is not among the sources: "every alive LAN member meets a minimum software version
threshold"; a member that cannot be read as a server is treated as not alive. -/
def ServersMeetMinimumVersion (IsConsulServer : Member → Option ServerParts)
    (members : List Member) (minVersion : Version) : Bool :=
  members.all fun member =>
    match IsConsulServer member with
    | some parts =>
      if parts.Status = MemberStatus.StatusAlive then
        !versionLessThan parts.Build minVersion
      else
        true
    | none => true

/-- Dependencies for the examples with the version check as the spec describes it. -/
def specDeps : Deps :=
  { exampleDeps with
    ServersMeetMinimumVersion := ServersMeetMinimumVersion exampleIsConsulServer }

/-- The observation of a leader that can serve consistent reads and sees no member at
all, neither on the WAN nor on the LAN. -/
def emptyMembershipObservation : Observation :=
  { WANMembers := [], LANMembers := [], IsLeader := true,
    isReadyForConsistentReads := true, raftLeader := "", shutdown := false }

/-- The observation of a follower that sees no member at all; no leader is known. -/
def emptyFollowerObservation : Observation :=
  { emptyMembershipObservation with IsLeader := false }

/-- The observation of a leader that cannot serve consistent reads, with the shutdown
signal arriving during the wait. -/
def shutdownObservation : Observation :=
  { notReadyObservation with shutdown := true }

/-- A store whose token queries report no match and whose by-ID policy query fails. -/
def policyFailingState : State :=
  { emptyState with
    ACLPolicyGetByID := fun _ => (0, none, some "store unavailable") }

lemma scanWANMembers_eq_true_iff (deps : Deps) (dc : String) (ms : List Member) :
    scanWANMembers deps dc ms = true ↔
      ∀ m ∈ ms, ∀ parts, deps.IsConsulServer m = some parts →
        parts.Status = MemberStatus.StatusAlive → parts.Datacenter = dc →
        parts.ACLs = ACLModeEnabled := by
  induction ms with
  | nil => simp [scanWANMembers]
  | cons m rest ih =>
    unfold scanWANMembers
    cases hm : deps.IsConsulServer m with
    | none => simp [hm, ih]
    | some parts =>
      by_cases hst : parts.Status = MemberStatus.StatusAlive
      · by_cases hdc : parts.Datacenter = dc
        · by_cases hacl : parts.ACLs = ACLModeEnabled
          · simp [hm, hst, hdc, hacl, ih]
          · simp only [hst, hdc, hacl, if_true, ne_eq, not_true_eq_false, if_false,
              not_false_eq_true, Bool.false_eq_true, false_iff]
            intro h
            exact hacl (h m (List.mem_cons_self _ _) parts hm hst hdc)
        · simp [hm, hst, hdc, ih]
      · simp [hm, hst, ih]

lemma scanWANMembers_filter (deps : Deps) (dc : String) (ms : List Member) :
    scanWANMembers deps dc (ms.filter (countsForUpgrade deps dc)) =
      scanWANMembers deps dc ms := by
  rw [Bool.eq_iff_iff, scanWANMembers_eq_true_iff, scanWANMembers_eq_true_iff]
  constructor
  · intro h m hmem parts hp hst hdc
    refine h m ?_ parts hp hst hdc
    rw [List.mem_filter]
    exact ⟨hmem, by simp [countsForUpgrade, hp, hst, hdc]⟩
  · intro h m hmem parts hp hst hdc
    exact h m (List.mem_of_mem_filter hmem) parts hp hst hdc

/-- C1: `canUpgrade` is true exactly when the node is in the ACL datacenter or
every WAN member that is a valid server, alive and of the ACL datacenter
advertises `enabled`; the scan gives the same value on any reordering of the
member list and on the list with all other members removed; and on a node
outside the ACL datacenter three alive ACL-datacenter servers, two on `enabled`
and one on `legacy`, give `canUpgrade = false`. -/
theorem canUpgrade_iff_all_enabled :
    (∀ (deps : Deps) (s : Server) (o : Observation),
      canUpgrade deps s o = true ↔
        (s.config.Datacenter = s.config.ACLDatacenter ∨
          ∀ m ∈ o.WANMembers, ∀ parts, deps.IsConsulServer m = some parts →
            parts.Status = MemberStatus.StatusAlive →
            parts.Datacenter = s.config.ACLDatacenter →
            parts.ACLs = ACLModeEnabled)) ∧
    (∀ (deps : Deps) (s : Server) (o o' : Observation),
      List.Perm o.WANMembers o'.WANMembers →
        canUpgrade deps s o = canUpgrade deps s o') ∧
    (∀ (deps : Deps) (s : Server) (o : Observation),
      canUpgrade deps s
          { o with WANMembers :=
              o.WANMembers.filter (countsForUpgrade deps s.config.ACLDatacenter) } =
        canUpgrade deps s o) ∧
    canUpgrade exampleDeps dc2Server holdoutObservation = false := by
  refine ⟨?_, ?_, ?_, ?_⟩
  · intro deps s o
    unfold canUpgrade InACLDatacenter
    by_cases hdc : s.config.Datacenter = s.config.ACLDatacenter
    · simp [hdc]
    · simp [hdc, scanWANMembers_eq_true_iff]
  · intro deps s o o' hperm
    unfold canUpgrade
    split
    · rw [Bool.eq_iff_iff, scanWANMembers_eq_true_iff, scanWANMembers_eq_true_iff]
      constructor
      · intro h m hmem
        exact h m (hperm.mem_iff.mpr hmem)
      · intro h m hmem
        exact h m (hperm.mem_iff.mp hmem)
    · rfl
  · intro deps s o
    unfold canUpgrade
    split
    · exact scanWANMembers_filter deps _ _
    · rfl
  · decide

/-! ## One iteration of the loop -/

lemma monitorACLModeIter_cases (deps : Deps) (o : Observation) (s : Server) :
    monitorACLModeIter deps o s = waitOrShutdown o ∨
    monitorACLModeIter deps o s =
      ⟨[setUseNewACLs s, initializeACLs deps (setUseNewACLs s),
        updateACLAdvertisement (initializeACLs deps (setUseNewACLs s))],
       Outcome.transitioned⟩ ∨
    monitorACLModeIter deps o s =
      ⟨[setUseNewACLs s, updateACLAdvertisement (setUseNewACLs s)],
       Outcome.transitioned⟩ := by
  unfold monitorACLModeIter
  by_cases hc : canUpgrade deps s o = true
  · by_cases hl : o.IsLeader = true
    · by_cases hg : (o.isReadyForConsistentReads &&
          deps.ServersMeetMinimumVersion o.LANMembers minVersion) = true
      · simp [hc, hl, hg]
      · simp only [hc, hl, hg, if_true, if_false, Bool.false_eq_true, true_or]
    · by_cases hsc : scanLANMembers deps o.raftLeader o.LANMembers = true
      · simp [hc, hl, hsc]
      · simp [hc, hl, hsc]
  · simp [hc]

lemma waitOrShutdown_states (o : Observation) : (waitOrShutdown o).states = [] := by
  unfold waitOrShutdown
  split_ifs <;> rfl

lemma waitOrShutdown_outcome_ne (o : Observation) :
    (waitOrShutdown o).outcome ≠ Outcome.transitioned := by
  unfold waitOrShutdown
  split_ifs <;> simp

lemma monitorACLModeIter_leader (deps : Deps) (o : Observation) (s : Server)
    (hLeader : o.IsLeader = true) :
    monitorACLModeIter deps o s =
      if canUpgrade deps s o = true ∧ o.isReadyForConsistentReads = true ∧
          deps.ServersMeetMinimumVersion o.LANMembers minVersion = true then
        ⟨[setUseNewACLs s, initializeACLs deps (setUseNewACLs s),
          updateACLAdvertisement (initializeACLs deps (setUseNewACLs s))],
         Outcome.transitioned⟩
      else waitOrShutdown o := by
  unfold monitorACLModeIter
  by_cases hc : canUpgrade deps s o = true
  · by_cases hr : o.isReadyForConsistentReads = true
    · by_cases hv : deps.ServersMeetMinimumVersion o.LANMembers minVersion = true
      · simp [hc, hr, hv, hLeader]
      · simp [hc, hr, hv, hLeader]
    · simp [hc, hr, hLeader]
  · simp [hc]

/-- C2: for a leader, an iteration that changes the server or ends by the
transition has `canUpgrade`, `isReadyForConsistentReads()` and
`ServersMeetMinimumVersion(LANMembers, 1.4.0)` all true; if the consistent-read
condition or the minimum-version condition is false, the iteration makes no
state-changing call (flag, both tag maps, store and history are what they
were) and ends in the wait. -/
theorem leader_transition_guard (deps : Deps) (o : Observation) (s : Server)
    (hLeader : o.IsLeader = true) :
    (((monitorACLModeIter deps o s).states ≠ [] ∨
        (monitorACLModeIter deps o s).outcome = Outcome.transitioned) →
      canUpgrade deps s o = true ∧ o.isReadyForConsistentReads = true ∧
        deps.ServersMeetMinimumVersion o.LANMembers minVersion = true) ∧
    ((o.isReadyForConsistentReads = false ∨
        deps.ServersMeetMinimumVersion o.LANMembers minVersion = false) →
      (monitorACLModeIter deps o s).states = [] ∧
      (monitorACLModeIter deps o s).final s = s ∧
      (monitorACLModeIter deps o s).outcome =
        (if o.shutdown then Outcome.shutdown else Outcome.next)) := by
  rw [monitorACLModeIter_leader deps o s hLeader]
  constructor
  · intro h
    by_contra hcond
    rw [if_neg hcond] at h
    rcases h with h | h
    · exact h (waitOrShutdown_states o)
    · exact waitOrShutdown_outcome_ne o h
  · intro h
    have hcond : ¬ (canUpgrade deps s o = true ∧ o.isReadyForConsistentReads = true ∧
        deps.ServersMeetMinimumVersion o.LANMembers minVersion = true) := by
      rintro ⟨_, hr, hv⟩
      rcases h with h | h
      · rw [hr] at h; exact Bool.noConfusion h
      · rw [hv] at h; exact Bool.noConfusion h
    rw [if_neg hcond]
    unfold waitOrShutdown IterResult.final
    split_ifs <;> simp

/-- Witness of C2: a leader of the ACL datacenter that cannot serve consistent reads
makes no state-changing call and goes on to the next iteration. -/
theorem leader_transition_guard_witness :
    notReadyObservation.IsLeader = true ∧
    (monitorACLModeIter exampleDeps notReadyObservation dc1Server).states = [] ∧
    (monitorACLModeIter exampleDeps notReadyObservation dc1Server).outcome = Outcome.next :=
  ⟨rfl,
   ((leader_transition_guard exampleDeps notReadyObservation dc1Server rfl).2
      (Or.inl rfl)).1,
   ((leader_transition_guard exampleDeps notReadyObservation dc1Server rfl).2
      (Or.inl rfl)).2.2⟩

/-! ## The follower scan -/

lemma scanLANMembers_eq_true_iff (deps : Deps) (leader : String) (lan : List Member) :
    scanLANMembers deps leader lan = true ↔
      leaderACLs deps leader lan = some ACLModeEnabled := by
  induction lan with
  | nil => simp [scanLANMembers, leaderACLs]
  | cons m rest ih =>
    unfold scanLANMembers
    cases hm : deps.IsConsulServer m with
    | none =>
      have hp : isLeaderMember deps leader m = false := by simp [isLeaderMember, hm]
      have hl : leaderACLs deps leader (m :: rest) = leaderACLs deps leader rest := by
        simp [leaderACLs, List.find?, hp]
      simp only [hl, ih]
    | some parts =>
      by_cases hst : parts.Status = MemberStatus.StatusAlive
      · by_cases haddr : TCPAddrString m.Addr parts.Port = leader
        · have hp : isLeaderMember deps leader m = true := by
            simp [isLeaderMember, hm, hst, haddr]
          have hl : leaderACLs deps leader (m :: rest) = some parts.ACLs := by
            simp [leaderACLs, List.find?, hp, hm]
          by_cases hacl : parts.ACLs = ACLModeEnabled
          · simp [hst, haddr, hacl, hl]
          · simp [hst, haddr, hacl, hl]
        · have hp : isLeaderMember deps leader m = false := by
            simp [isLeaderMember, hm, haddr]
          have hl : leaderACLs deps leader (m :: rest) = leaderACLs deps leader rest := by
            simp [leaderACLs, List.find?, hp]
          simp only [hst, haddr, if_true, if_false, hl, ih]
      · have hp : isLeaderMember deps leader m = false := by
          simp [isLeaderMember, hm, hst]
        have hl : leaderACLs deps leader (m :: rest) = leaderACLs deps leader rest := by
          simp [leaderACLs, List.find?, hp]
        simp only [hst, if_false, hl, ih]

lemma TCPAddrString_ne_empty (ip : String) (port : Nat) : TCPAddrString ip port ≠ "" := by
  intro h
  have hlen := congrArg String.length h
  unfold TCPAddrString JoinHostPort at hlen
  split_ifs at hlen
  · simp only [String.length_append] at hlen
    have h2 : "]:".length = 2 := by decide
    have h0 : "".length = 0 := by decide
    omega
  · simp only [String.length_append] at hlen
    have h1 : ":".length = 1 := by decide
    have h0 : "".length = 0 := by decide
    omega

lemma leaderACLs_empty_leader (deps : Deps) (lan : List Member) :
    leaderACLs deps "" lan = none := by
  have hfind : lan.find? (isLeaderMember deps "") = none := by
    rw [List.find?_eq_none]
    intro m _
    unfold isLeaderMember
    cases hm : deps.IsConsulServer m with
    | none => simp
    | some parts => simp [TCPAddrString_ne_empty]
  simp [leaderACLs, hfind]

lemma monitorACLModeIter_follower (deps : Deps) (o : Observation) (s : Server)
    (hFollower : o.IsLeader = false) (hCan : canUpgrade deps s o = true) :
    monitorACLModeIter deps o s =
      if leaderACLs deps o.raftLeader o.LANMembers = some ACLModeEnabled then
        ⟨[setUseNewACLs s, updateACLAdvertisement (setUseNewACLs s)], Outcome.transitioned⟩
      else waitOrShutdown o := by
  unfold monitorACLModeIter
  by_cases hsc : scanLANMembers deps o.raftLeader o.LANMembers = true
  · have hl := (scanLANMembers_eq_true_iff deps o.raftLeader o.LANMembers).mp hsc
    simp [hCan, hFollower, hsc, hl]
  · have hl : ¬ leaderACLs deps o.raftLeader o.LANMembers = some ACLModeEnabled :=
      fun h => hsc ((scanLANMembers_eq_true_iff deps o.raftLeader o.LANMembers).mpr h)
    simp [hCan, hFollower, hsc, hl]

/-- C3: for a node that is not the leader and with `canUpgrade` true, the
iteration sets `useNewACLs` and publishes the advertisement (and returns)
exactly when the first LAN member that is a valid, alive server at the raft
leader address advertises `enabled`; in every other case, among them an
empty leader address, it makes no state-changing call and ends in the wait.
The outcome is the same whatever the node's own LAN and WAN tags are, and
after the transition `useNewACLs` is true and the LAN tag `acls` is `enabled`. -/
theorem follower_mirrors_leader (deps : Deps) (o : Observation) (s : Server)
    (hFollower : o.IsLeader = false) (hCan : canUpgrade deps s o = true) :
    ((monitorACLModeIter deps o s).states =
          [setUseNewACLs s, updateACLAdvertisement (setUseNewACLs s)] ∧
        (monitorACLModeIter deps o s).outcome = Outcome.transitioned ↔
      leaderACLs deps o.raftLeader o.LANMembers = some ACLModeEnabled) ∧
    (leaderACLs deps o.raftLeader o.LANMembers ≠ some ACLModeEnabled →
      (monitorACLModeIter deps o s).states = [] ∧
      (monitorACLModeIter deps o s).final s = s ∧
      (monitorACLModeIter deps o s).outcome =
        (if o.shutdown then Outcome.shutdown else Outcome.next)) ∧
    (o.raftLeader = "" → (monitorACLModeIter deps o s).states = []) ∧
    (∀ lanTags wanTags : Tags,
      (monitorACLModeIter deps o { s with serfLAN := lanTags, serfWAN := wanTags }).outcome =
        (monitorACLModeIter deps o s).outcome) ∧
    (leaderACLs deps o.raftLeader o.LANMembers = some ACLModeEnabled →
      ((monitorACLModeIter deps o s).final s).useNewACLs = true ∧
      ((monitorACLModeIter deps o s).final s).serfLAN "acls" = some ACLModeEnabled) := by
  have hwait : (waitOrShutdown o).states = [] ∧ (waitOrShutdown o).final s = s ∧
      (waitOrShutdown o).outcome =
        (if o.shutdown then Outcome.shutdown else Outcome.next) := by
    unfold waitOrShutdown IterResult.final
    split_ifs <;> simp
  refine ⟨?_, ?_, ?_, ?_, ?_⟩
  rotate_left 4
  · intro hl
    rw [monitorACLModeIter_follower deps o s hFollower hCan, if_pos hl]
    simp only [IterResult.final, updateACLAdvertisement, setUseNewACLs]
    split_ifs <;> simp [UpdateSerfTag]
  · rw [monitorACLModeIter_follower deps o s hFollower hCan]
    by_cases hl : leaderACLs deps o.raftLeader o.LANMembers = some ACLModeEnabled
    · simp [hl]
    · simp only [hl, if_false, iff_false, not_and]
      intro h
      rw [hwait.1] at h
      exact absurd h (by simp)
  · intro hl
    rw [monitorACLModeIter_follower deps o s hFollower hCan, if_neg hl]
    exact hwait
  · intro hempty
    rw [monitorACLModeIter_follower deps o s hFollower hCan, hempty,
      leaderACLs_empty_leader]
    simpa using hwait.1
  · intro lanTags wanTags
    have hCan' : canUpgrade deps { s with serfLAN := lanTags, serfWAN := wanTags } o = true :=
      hCan
    rw [monitorACLModeIter_follower deps o s hFollower hCan,
      monitorACLModeIter_follower deps o _ hFollower hCan']
    split_ifs <;> rfl

/-- Witness of C3: a follower in `dc1` whose own entry is on `legacy` and whose leader
`10.0.0.1:8300` advertises `enabled` sets the flag and publishes. -/
theorem follower_mirrors_leader_witness :
    followerObservation.IsLeader = false ∧
    canUpgrade exampleDeps dc1Server followerObservation = true ∧
    (monitorACLModeIter exampleDeps followerObservation dc1Server).states =
      [setUseNewACLs dc1Server, updateACLAdvertisement (setUseNewACLs dc1Server)] ∧
    (monitorACLModeIter exampleDeps followerObservation dc1Server).outcome =
      Outcome.transitioned :=
  ⟨rfl, by decide,
   (follower_mirrors_leader exampleDeps followerObservation dc1Server rfl (by decide)).1.mpr
     (by decide)⟩

/-! ## Runs of `monitorACLMode` -/

lemma monitorACLModeIter_states_of_next (deps : Deps) (o : Observation) (s : Server)
    (h : (monitorACLModeIter deps o s).outcome = Outcome.next) :
    (monitorACLModeIter deps o s).states = [] := by
  rcases monitorACLModeIter_cases deps o s with hc | hc | hc
  · rw [hc]; exact waitOrShutdown_states o
  · rw [hc] at h; exact Outcome.noConfusion h
  · rw [hc] at h; exact Outcome.noConfusion h

lemma monitorACLModeIter_chain (deps : Deps) (o : Observation) (s : Server) :
    List.Chain (fun a b : Server => a.useNewACLs = true → b.useNewACLs = true) s
      (monitorACLModeIter deps o s).states := by
  rcases monitorACLModeIter_cases deps o s with hc | hc | hc
  · rw [hc, waitOrShutdown_states]; exact List.Chain.nil
  · rw [hc]
    simp [setUseNewACLs, initializeACLs, updateACLAdvertisement]
    split_ifs <;> simp
  · rw [hc]
    simp [setUseNewACLs, updateACLAdvertisement]
    split_ifs <;> simp

lemma monitorACLModeLoop_cons_next (deps : Deps) (o : Observation) (os : List Observation)
    (s : Server) (h : (monitorACLModeIter deps o s).outcome = Outcome.next) :
    monitorACLModeLoop deps s (o :: os) =
      ((monitorACLModeIter deps o s).states ++
          (monitorACLModeLoop deps ((monitorACLModeIter deps o s).final s) os).1,
        (monitorACLModeLoop deps ((monitorACLModeIter deps o s).final s) os).2) := by
  simp [monitorACLModeLoop, h]

lemma monitorACLModeLoop_cons_stop (deps : Deps) (o : Observation) (os : List Observation)
    (s : Server) (h : (monitorACLModeIter deps o s).outcome ≠ Outcome.next) :
    monitorACLModeLoop deps s (o :: os) =
      ((monitorACLModeIter deps o s).states, some (monitorACLModeIter deps o s).outcome) := by
  cases hout : (monitorACLModeIter deps o s).outcome with
  | next => exact absurd hout h
  | transitioned => simp [monitorACLModeLoop, hout]
  | shutdown => simp [monitorACLModeLoop, hout]

lemma monitorACLModeLoop_chain (deps : Deps) (obs : List Observation) (s : Server) :
    List.Chain (fun a b : Server => a.useNewACLs = true → b.useNewACLs = true) s
      (monitorACLModeLoop deps s obs).1 := by
  induction obs generalizing s with
  | nil => exact List.Chain.nil
  | cons o os ih =>
    by_cases hout : (monitorACLModeIter deps o s).outcome = Outcome.next
    · have hst := monitorACLModeIter_states_of_next deps o s hout
      rw [monitorACLModeLoop_cons_next deps o os s hout]
      simp only [hst, List.nil_append, IterResult.final, List.getLast?_nil, Option.getD_none]
      exact ih s
    · rw [monitorACLModeLoop_cons_stop deps o os s hout]
      exact monitorACLModeIter_chain deps o s

/-- C4: along every run of `monitorACLMode`, from any server value and for any
sequence of observations, a state with `useNewACLs` true is followed only by
states with `useNewACLs` true; put with `UseLegacyACLs`, once it has returned
false it returns false in every later state. -/
theorem useNewACLs_monotonic (deps : Deps) (s : Server) (obs : List Observation) :
    List.Pairwise (fun a b : Server => a.useNewACLs = true → b.useNewACLs = true)
      (monitorACLMode deps s obs).1 ∧
    ∀ (i j : Nat) (a b : Server), i ≤ j →
      (monitorACLMode deps s obs).1[i]? = some a →
      (monitorACLMode deps s obs).1[j]? = some b →
      (a.useNewACLs = true → b.useNewACLs = true) ∧
      (UseLegacyACLs a = false → UseLegacyACLs b = false) := by
  have hpw : List.Pairwise (fun a b : Server => a.useNewACLs = true → b.useNewACLs = true)
      (monitorACLMode deps s obs).1 := by
    unfold monitorACLMode
    have hchain := monitorACLModeLoop_chain deps obs s
    haveI : IsTrans Server (fun a b : Server => a.useNewACLs = true → b.useNewACLs = true) :=
      ⟨fun _ _ _ hab hbc ha => hbc (hab ha)⟩
    exact List.Chain.pairwise hchain
  refine ⟨hpw, ?_⟩
  intro i j a b hij ha hb
  have hmono : a.useNewACLs = true → b.useNewACLs = true := by
    rcases Nat.lt_or_eq_of_le hij with hlt | heq
    · rw [List.pairwise_iff_getElem] at hpw
      obtain ⟨hi, hai⟩ := List.getElem?_eq_some_iff.mp ha
      obtain ⟨hj, hbj⟩ := List.getElem?_eq_some_iff.mp hb
      rw [← hai, ← hbj]
      exact hpw i j hi hj hlt
    · subst heq
      rw [ha] at hb
      cases hb
      exact id
  refine ⟨hmono, ?_⟩
  unfold UseLegacyACLs
  intro h
  have ha' : a.useNewACLs = true := by simpa using h
  simp [hmono ha']

/-! ## The leader transition -/

lemma monitorACLModeIter_leader_of_transitioned (deps : Deps) (o : Observation) (s : Server)
    (hLeader : o.IsLeader = true)
    (hOut : (monitorACLModeIter deps o s).outcome = Outcome.transitioned) :
    monitorACLModeIter deps o s =
      ⟨[setUseNewACLs s, initializeACLs deps (setUseNewACLs s),
        updateACLAdvertisement (initializeACLs deps (setUseNewACLs s))],
       Outcome.transitioned⟩ := by
  rw [monitorACLModeIter_leader deps o s hLeader] at hOut ⊢
  split_ifs with hcond
  · rfl
  · rw [if_neg hcond] at hOut
    exact absurd hOut (waitOrShutdown_outcome_ne o)

lemma updateACLAdvertisement_events (s : Server) :
    (updateACLAdvertisement s).events = s.events ++ [Event.updateACLAdvertisement] := by
  simp only [updateACLAdvertisement]
  split_ifs <;> rfl

lemma updateACLAdvertisement_useNewACLs (s : Server) :
    (updateACLAdvertisement s).useNewACLs = s.useNewACLs := by
  simp only [updateACLAdvertisement]
  split_ifs <;> rfl

/-- C5 fails on the code: in the transition of a leader of `dc1` that starts with
`useNewACLs` false and an empty history, the first state has `useNewACLs` true
(`UseLegacyACLs` false) while the history holds `setUseNewACLs` only, so
`initializeACLs` has not run. -/
theorem flag_set_before_initialization :
    ((monitorACLModeIter exampleDeps leaderObservation dc1Server).states.map
        (fun st => (st.useNewACLs, UseLegacyACLs st, st.events))).head? =
      some (true, false, [Event.setUseNewACLs]) ∧
    Event.initializeACLs ∉ [Event.setUseNewACLs] := by
  decide

/-- C5 as amended: in the leader transition the flag is set first: the first
state of the transition has `useNewACLs` true and `UseLegacyACLs` false with
`initializeACLs` not among the calls made so far in the iteration;
`initializeACLs` is the next call, and in the state in which the
advertisement has been published `initializeACLs` has run before
`updateACLAdvertisement`. -/
theorem initialization_between_flag_and_advertisement (deps : Deps) (o : Observation)
    (s : Server) (hLeader : o.IsLeader = true)
    (hOut : (monitorACLModeIter deps o s).outcome = Outcome.transitioned) :
    ∃ s1 s2 s3 : Server, (monitorACLModeIter deps o s).states = [s1, s2, s3] ∧
      (s1.useNewACLs = true ∧ UseLegacyACLs s1 = false ∧
        s1.events = s.events ++ [Event.setUseNewACLs]) ∧
      (s2.useNewACLs = true ∧
        s2.events = s.events ++ [Event.setUseNewACLs, Event.initializeACLs]) ∧
      (s3.useNewACLs = true ∧
        s3.events = s.events ++
          [Event.setUseNewACLs, Event.initializeACLs, Event.updateACLAdvertisement]) := by
  refine ⟨setUseNewACLs s, initializeACLs deps (setUseNewACLs s),
    updateACLAdvertisement (initializeACLs deps (setUseNewACLs s)), ?_, ?_, ?_, ?_⟩
  · rw [monitorACLModeIter_leader_of_transitioned deps o s hLeader hOut]
  · simp [setUseNewACLs, UseLegacyACLs]
  · simp [setUseNewACLs, initializeACLs]
  · rw [updateACLAdvertisement_events, updateACLAdvertisement_useNewACLs]
    simp [setUseNewACLs, initializeACLs]

/-- Witness of the amended C5 on a leader of `dc1`. -/
theorem initialization_between_flag_and_advertisement_witness :
    leaderObservation.IsLeader = true ∧
    (monitorACLModeIter exampleDeps leaderObservation dc1Server).outcome =
      Outcome.transitioned ∧
    ∃ s1 s2 s3 : Server,
      (monitorACLModeIter exampleDeps leaderObservation dc1Server).states = [s1, s2, s3] ∧
      (s1.useNewACLs = true ∧ UseLegacyACLs s1 = false ∧
        s1.events = dc1Server.events ++ [Event.setUseNewACLs]) ∧
      (s2.useNewACLs = true ∧
        s2.events = dc1Server.events ++ [Event.setUseNewACLs, Event.initializeACLs]) ∧
      (s3.useNewACLs = true ∧
        s3.events = dc1Server.events ++
          [Event.setUseNewACLs, Event.initializeACLs, Event.updateACLAdvertisement]) :=
  ⟨rfl, by decide,
   initialization_between_flag_and_advertisement exampleDeps leaderObservation dc1Server rfl
     (by decide)⟩

/-- C6: whenever a leader's iteration ends by the transition, the calls it
made are exactly `useNewACLs.Set(true)`, `initializeACLs`,
`updateACLAdvertisement`, each once and in this order (three states, and the
history grows by these three names), and the run of `monitorACLMode` ends
with this iteration whatever observations would follow. -/
theorem leader_transition_actions (deps : Deps) (o : Observation) (s : Server)
    (hLeader : o.IsLeader = true)
    (hOut : (monitorACLModeIter deps o s).outcome = Outcome.transitioned) :
    (monitorACLModeIter deps o s).states =
      [setUseNewACLs s, initializeACLs deps (setUseNewACLs s),
        updateACLAdvertisement (initializeACLs deps (setUseNewACLs s))] ∧
    ((monitorACLModeIter deps o s).final s).events =
      s.events ++ [Event.setUseNewACLs, Event.initializeACLs, Event.updateACLAdvertisement] ∧
    ∀ os : List Observation,
      monitorACLMode deps s (o :: os) =
        (s :: (monitorACLModeIter deps o s).states, some Outcome.transitioned) := by
  have hne : (monitorACLModeIter deps o s).outcome ≠ Outcome.next := by
    rw [hOut]; exact fun h => Outcome.noConfusion h
  refine ⟨?_, ?_, ?_⟩
  · rw [monitorACLModeIter_leader_of_transitioned deps o s hLeader hOut]
  · rw [monitorACLModeIter_leader_of_transitioned deps o s hLeader hOut]
    simp [IterResult.final, updateACLAdvertisement_events, setUseNewACLs, initializeACLs]
  · intro os
    unfold monitorACLMode
    rw [monitorACLModeLoop_cons_stop deps o os s hne, hOut]

/-- Witness of C6 on a leader of `dc1`; a later shutdown observation is not reached. -/
theorem leader_transition_actions_witness :
    leaderObservation.IsLeader = true ∧
    (monitorACLModeIter exampleDeps leaderObservation dc1Server).outcome =
      Outcome.transitioned ∧
    ((monitorACLModeIter exampleDeps leaderObservation dc1Server).final dc1Server).events =
      dc1Server.events ++
        [Event.setUseNewACLs, Event.initializeACLs, Event.updateACLAdvertisement] :=
  ⟨rfl, by decide,
   (leader_transition_actions exampleDeps leaderObservation dc1Server rfl (by decide)).2.1⟩

/-! ## Resolution -/

/-- C7: when the by-secret query succeeds with no token, `ResolveIdentityFromToken`
returns `(InACLDatacenter(), nil, nil)`: `(true, nil, nil)` when
`config.Datacenter == config.ACLDatacenter` and `(false, nil, nil)` otherwise. -/
theorem resolveIdentity_miss (s : Server) (secret : String)
    (hMiss : (s.fsm.ACLTokenGetBySecret secret).2 = (none, none)) :
    ResolveIdentityFromToken s secret = (InACLDatacenter s, none, none) ∧
    (s.config.Datacenter = s.config.ACLDatacenter →
      ResolveIdentityFromToken s secret = (true, none, none)) ∧
    (s.config.Datacenter ≠ s.config.ACLDatacenter →
      ResolveIdentityFromToken s secret = (false, none, none)) := by
  rcases hq : s.fsm.ACLTokenGetBySecret secret with ⟨idx, tok, err⟩
  rw [hq] at hMiss
  simp only [Prod.mk.injEq] at hMiss
  obtain ⟨rfl, rfl⟩ := hMiss
  have hres : ResolveIdentityFromToken s secret =
      (s.config.ACLDatacenter == s.config.Datacenter, none, none) := by
    simp [ResolveIdentityFromToken, hq]
  refine ⟨?_, ?_, ?_⟩
  · rw [hres]
    unfold InACLDatacenter
    by_cases h : s.config.Datacenter = s.config.ACLDatacenter
    · simp [h]
    · have h' : ¬ s.config.ACLDatacenter = s.config.Datacenter := fun e => h e.symm
      simp [h, h']
  · intro h
    rw [hres]; simp [h]
  · intro h
    have h' : ¬ s.config.ACLDatacenter = s.config.Datacenter := fun e => h e.symm
    rw [hres]; simp [h']

/-- Witness of C7: an unknown secret on a server of `dc2`, outside the ACL datacenter
`dc1`, resolves to `(false, nil, nil)`. -/
theorem resolveIdentity_miss_witness :
    (dc2Server.fsm.ACLTokenGetBySecret "unknown").2 = (none, none) ∧
    ResolveIdentityFromToken dc2Server "unknown" = (false, none, none) :=
  ⟨rfl, (resolveIdentity_miss dc2Server "unknown" rfl).2.2 (by decide)⟩

/-- C8: when the by-secret query succeeds with a token `t`,
`ResolveIdentityFromToken` returns `(true, t, nil)` whatever the datacenter
configuration is. -/
theorem resolveIdentity_hit (s : Server) (secret : String) (t : ACLToken)
    (hHit : (s.fsm.ACLTokenGetBySecret secret).2 = (some t, none)) :
    ResolveIdentityFromToken s secret = (true, some t, none) := by
  rcases hq : s.fsm.ACLTokenGetBySecret secret with ⟨idx, tok, err⟩
  rw [hq] at hHit
  simp only [Prod.mk.injEq] at hHit
  obtain ⟨rfl, rfl⟩ := hHit
  simp [ResolveIdentityFromToken, hq]

/-- Witness of C8: a stored token is reported authoritative on a server of `dc2`,
outside the ACL datacenter `dc1`. -/
theorem resolveIdentity_hit_witness :
    (({ dc2Server with fsm := oneTokenState } : Server).fsm.ACLTokenGetBySecret
        "secret-1").2 = (some exampleToken, none) ∧
    InACLDatacenter { dc2Server with fsm := oneTokenState } = false ∧
    ResolveIdentityFromToken { dc2Server with fsm := oneTokenState } "secret-1" =
      (true, some exampleToken, none) :=
  ⟨by decide, by decide,
   resolveIdentity_hit { dc2Server with fsm := oneTokenState } "secret-1" exampleToken
     (by decide)⟩

/-- C9: `ResolvePolicyFromID` returns `true` as its first result for every
policy ID, store and configuration; its second and third results are the
policy and the error of the store's by-ID query. -/
theorem resolvePolicy_always_authoritative (s : Server) (policyID : String) :
    ResolvePolicyFromID s policyID =
      (true, (s.fsm.ACLPolicyGetByID policyID).2.1, (s.fsm.ACLPolicyGetByID policyID).2.2) ∧
    (ResolvePolicyFromID s policyID).1 = true := by
  unfold ResolvePolicyFromID
  exact ⟨rfl, rfl⟩

/-! ## Identifier availability -/

/-- C10: for a reserved id, `checkTokenUUID` and `checkPolicyUUID` both
return `available = false`, for every store. -/
theorem reserved_id_unavailable (deps : Deps) (s : Server) (id : String)
    (hReserved : deps.ACLIDReserved id = true) :
    (checkTokenUUID deps s id).1 = false ∧ (checkPolicyUUID deps s id).1 = false := by
  constructor
  · unfold checkTokenUUID
    rcases h1 : s.fsm.ACLTokenGetByAccessor id with ⟨i1, t1, e1⟩
    rcases h2 : s.fsm.ACLTokenGetBySecret id with ⟨i2, t2, e2⟩
    cases t1 <;> cases e1 <;> cases t2 <;> cases e2 <;> simp [h1, h2, hReserved]
  · unfold checkPolicyUUID
    rcases h1 : s.fsm.ACLPolicyGetByID id with ⟨i1, p1, e1⟩
    cases p1 <;> cases e1 <;> simp [h1, hReserved]

/-- Witness of C10: a reserved id is unavailable on a store with no tokens or policies. -/
theorem reserved_id_unavailable_witness :
    reservingDeps.ACLIDReserved "00000000-0000-0000-0000-000000000001" = true ∧
    (dc1Server.fsm.ACLTokenGetByAccessor "00000000-0000-0000-0000-000000000001").2.1 = none ∧
    (dc1Server.fsm.ACLTokenGetBySecret "00000000-0000-0000-0000-000000000001").2.1 = none ∧
    (dc1Server.fsm.ACLPolicyGetByID "00000000-0000-0000-0000-000000000001").2.1 = none ∧
    (checkTokenUUID reservingDeps dc1Server "00000000-0000-0000-0000-000000000001").1 = false ∧
    (checkPolicyUUID reservingDeps dc1Server "00000000-0000-0000-0000-000000000001").1 =
      false :=
  ⟨by decide, rfl, rfl, rfl,
   reserved_id_unavailable reservingDeps dc1Server "00000000-0000-0000-0000-000000000001"
     (by decide)⟩

lemma checkTokenUUID_accessor_error (deps : Deps) (s : Server) (id : String) (e : Error)
    (h : (s.fsm.ACLTokenGetByAccessor id).2.2 = some e) :
    checkTokenUUID deps s id = (false, some e) := by
  unfold checkTokenUUID
  rcases h1 : s.fsm.ACLTokenGetByAccessor id with ⟨i1, t1, e1⟩
  rw [h1] at h
  simp only at h
  subst h
  simp [h1]

lemma checkTokenUUID_accessor_hit (deps : Deps) (s : Server) (id : String) (t : ACLToken)
    (h : (s.fsm.ACLTokenGetByAccessor id).2 = (some t, none)) :
    checkTokenUUID deps s id = (false, none) := by
  unfold checkTokenUUID
  rcases h1 : s.fsm.ACLTokenGetByAccessor id with ⟨i1, t1, e1⟩
  rw [h1] at h
  simp only [Prod.mk.injEq] at h
  obtain ⟨rfl, rfl⟩ := h
  simp [h1]

lemma checkTokenUUID_accessor_miss (deps : Deps) (s : Server) (id : String)
    (h : (s.fsm.ACLTokenGetByAccessor id).2 = (none, none)) :
    checkTokenUUID deps s id =
      match s.fsm.ACLTokenGetBySecret id with
      | (_, _, some err) => (false, some err)
      | (_, some _, none) => (false, none)
      | (_, none, none) => (!deps.ACLIDReserved id, none) := by
  unfold checkTokenUUID
  rcases h1 : s.fsm.ACLTokenGetByAccessor id with ⟨i1, t1, e1⟩
  rw [h1] at h
  simp only [Prod.mk.injEq] at h
  obtain ⟨rfl, rfl⟩ := h
  simp [h1]

lemma checkTokenUUID_true_iff (deps : Deps) (s : Server) (id : String) :
    (checkTokenUUID deps s id).1 = true ↔
      (s.fsm.ACLTokenGetByAccessor id).2 = (none, none) ∧
      (s.fsm.ACLTokenGetBySecret id).2 = (none, none) ∧
      deps.ACLIDReserved id = false := by
  unfold checkTokenUUID
  rcases h1 : s.fsm.ACLTokenGetByAccessor id with ⟨i1, t1, e1⟩
  rcases h2 : s.fsm.ACLTokenGetBySecret id with ⟨i2, t2, e2⟩
  cases t1 <;> cases e1 <;> cases t2 <;> cases e2 <;> simp [h1, h2]

lemma checkPolicyUUID_true_iff (deps : Deps) (s : Server) (id : String) :
    (checkPolicyUUID deps s id).1 = true ↔
      (s.fsm.ACLPolicyGetByID id).2 = (none, none) ∧ deps.ACLIDReserved id = false := by
  unfold checkPolicyUUID
  rcases h1 : s.fsm.ACLPolicyGetByID id with ⟨i1, p1, e1⟩
  cases p1 <;> cases e1 <;> simp [h1]

/-- C11: if the by-accessor index or the by-secret index returns a token for
`id`, `checkTokenUUID(id)` returns `available = false`; in particular when the
by-accessor query reports no match and only the by-secret query returns a
token, the result is `(false, nil)`. -/
theorem token_found_unavailable (deps : Deps) (s : Server) (id : String)
    (hFound : (∃ t, (s.fsm.ACLTokenGetByAccessor id).2.1 = some t) ∨
      (∃ t, (s.fsm.ACLTokenGetBySecret id).2.1 = some t)) :
    (checkTokenUUID deps s id).1 = false ∧
    ((s.fsm.ACLTokenGetByAccessor id).2 = (none, none) →
      (s.fsm.ACLTokenGetBySecret id).2.2 = none →
      checkTokenUUID deps s id = (false, none)) := by
  constructor
  · by_contra hne
    have htrue : (checkTokenUUID deps s id).1 = true := by simpa using hne
    obtain ⟨hacc, hsec, _⟩ := (checkTokenUUID_true_iff deps s id).mp htrue
    rcases hFound with ⟨t, ht⟩ | ⟨t, ht⟩
    · rw [hacc] at ht; exact Option.noConfusion ht
    · rw [hsec] at ht; exact Option.noConfusion ht
  · intro hacc hsecErr
    rcases hFound with ⟨t, ht⟩ | ⟨t, ht⟩
    · rw [hacc] at ht; exact Option.noConfusion ht
    · rw [checkTokenUUID_accessor_miss deps s id hacc]
      rcases h2 : s.fsm.ACLTokenGetBySecret id with ⟨i2, t2, e2⟩
      rw [h2] at ht hsecErr
      simp only at ht hsecErr
      subst ht hsecErr
      rfl

/-- Witness of C11: the id `secret-1` matches under the secret index only and is
reported unavailable. -/
theorem token_found_unavailable_witness :
    (({ dc1Server with fsm := oneTokenState } : Server).fsm.ACLTokenGetByAccessor
        "secret-1").2 = (none, none) ∧
    (({ dc1Server with fsm := oneTokenState } : Server).fsm.ACLTokenGetBySecret
        "secret-1").2.1 = some exampleToken ∧
    checkTokenUUID exampleDeps { dc1Server with fsm := oneTokenState } "secret-1" =
      (false, none) :=
  ⟨by decide, by decide,
   (token_found_unavailable exampleDeps { dc1Server with fsm := oneTokenState } "secret-1"
      (Or.inr ⟨exampleToken, by decide⟩)).2 (by decide) (by decide)⟩

/-- C12: a store query issued by `checkTokenUUID` or `checkPolicyUUID` that
returns an error `e` makes the function return `(false, e)`: the by-accessor
query, the by-secret query after the by-accessor query reported no match, and
the by-ID policy query; and no result of either function has
`available = true` together with an error. -/
theorem uuid_checks_fail_closed (deps : Deps) (s : Server) (id : String) :
    (∀ e, (s.fsm.ACLTokenGetByAccessor id).2.2 = some e →
      checkTokenUUID deps s id = (false, some e)) ∧
    (∀ e, (s.fsm.ACLTokenGetByAccessor id).2 = (none, none) →
      (s.fsm.ACLTokenGetBySecret id).2.2 = some e →
      checkTokenUUID deps s id = (false, some e)) ∧
    (∀ e, (s.fsm.ACLPolicyGetByID id).2.2 = some e →
      checkPolicyUUID deps s id = (false, some e)) ∧
    ((checkTokenUUID deps s id).1 = true → (checkTokenUUID deps s id).2 = none) ∧
    ((checkPolicyUUID deps s id).1 = true → (checkPolicyUUID deps s id).2 = none) := by
  refine ⟨?_, ?_, ?_, ?_, ?_⟩
  · intro e he
    exact checkTokenUUID_accessor_error deps s id e he
  · intro e hacc he
    rw [checkTokenUUID_accessor_miss deps s id hacc]
    rcases h2 : s.fsm.ACLTokenGetBySecret id with ⟨i2, t2, e2⟩
    rw [h2] at he
    simp only at he
    subst he
    cases t2 <;> rfl
  · intro e he
    unfold checkPolicyUUID
    rcases h1 : s.fsm.ACLPolicyGetByID id with ⟨i1, p1, e1⟩
    rw [h1] at he
    simp only at he
    subst he
    simp [h1]
  · unfold checkTokenUUID
    rcases h1 : s.fsm.ACLTokenGetByAccessor id with ⟨i1, t1, e1⟩
    rcases h2 : s.fsm.ACLTokenGetBySecret id with ⟨i2, t2, e2⟩
    cases t1 <;> cases e1 <;> cases t2 <;> cases e2 <;> simp [h1, h2]
  · unfold checkPolicyUUID
    rcases h1 : s.fsm.ACLPolicyGetByID id with ⟨i1, p1, e1⟩
    cases p1 <;> cases e1 <;> simp [h1]

/-- Witness of C12: with the by-accessor query reporting no match and the
by-secret query failing, `checkTokenUUID` returns `(false, err)`; with the by-ID
query failing, so does `checkPolicyUUID`. -/
theorem uuid_checks_fail_closed_witness :
    checkTokenUUID exampleDeps { dc1Server with fsm := secretFailingState } "id-1" =
      (false, some "store unavailable") ∧
    checkPolicyUUID exampleDeps { dc1Server with fsm := failingState } "id-1" =
      (false, some "store unavailable") :=
  ⟨(uuid_checks_fail_closed exampleDeps { dc1Server with fsm := secretFailingState }
      "id-1").2.1 "store unavailable" rfl rfl,
   (uuid_checks_fail_closed exampleDeps { dc1Server with fsm := failingState }
      "id-1").2.2.1 "store unavailable" rfl⟩

/-- C13: when no store query fails, `checkTokenUUID(id)` returns `(true, nil)`
exactly when neither the by-accessor nor the by-secret index holds a token for
`id` and `id` is not reserved, and `checkPolicyUUID(id)` returns `(true, nil)`
exactly when the store holds no policy with that ID and `id` is not reserved;
so a non-reserved id absent from the store is reported available by both. -/
theorem uuid_available_iff (deps : Deps) (s : Server) (id : String)
    (hAccessor : (s.fsm.ACLTokenGetByAccessor id).2.2 = none)
    (hSecret : (s.fsm.ACLTokenGetBySecret id).2.2 = none)
    (hPolicy : (s.fsm.ACLPolicyGetByID id).2.2 = none) :
    (checkTokenUUID deps s id = (true, none) ↔
      (s.fsm.ACLTokenGetByAccessor id).2.1 = none ∧
      (s.fsm.ACLTokenGetBySecret id).2.1 = none ∧
      deps.ACLIDReserved id = false) ∧
    (checkPolicyUUID deps s id = (true, none) ↔
      (s.fsm.ACLPolicyGetByID id).2.1 = none ∧ deps.ACLIDReserved id = false) ∧
    (deps.ACLIDReserved id = false →
      (s.fsm.ACLTokenGetByAccessor id).2.1 = none →
      (s.fsm.ACLTokenGetBySecret id).2.1 = none →
      (s.fsm.ACLPolicyGetByID id).2.1 = none →
      checkTokenUUID deps s id = (true, none) ∧ checkPolicyUUID deps s id = (true, none)) := by
  have hTok : checkTokenUUID deps s id = (true, none) ↔
      (s.fsm.ACLTokenGetByAccessor id).2.1 = none ∧
      (s.fsm.ACLTokenGetBySecret id).2.1 = none ∧
      deps.ACLIDReserved id = false := by
    unfold checkTokenUUID
    rcases h1 : s.fsm.ACLTokenGetByAccessor id with ⟨i1, t1, e1⟩
    rcases h2 : s.fsm.ACLTokenGetBySecret id with ⟨i2, t2, e2⟩
    rw [h1] at hAccessor
    rw [h2] at hSecret
    simp only at hAccessor hSecret
    subst hAccessor hSecret
    cases t1 <;> cases t2 <;> simp [h1, h2]
  have hPol : checkPolicyUUID deps s id = (true, none) ↔
      (s.fsm.ACLPolicyGetByID id).2.1 = none ∧ deps.ACLIDReserved id = false := by
    unfold checkPolicyUUID
    rcases h1 : s.fsm.ACLPolicyGetByID id with ⟨i1, p1, e1⟩
    rw [h1] at hPolicy
    simp only at hPolicy
    subst hPolicy
    cases p1 <;> simp [h1]
  refine ⟨hTok, hPol, ?_⟩
  intro hres hacc hsec hpol
  exact ⟨hTok.mpr ⟨hacc, hsec, hres⟩, hPol.mpr ⟨hpol, hres⟩⟩

/-- Witness of C13: on a store without tokens and policies a non-reserved id is
available as a token id and as a policy id. -/
theorem uuid_available_iff_witness :
    (dc1Server.fsm.ACLTokenGetByAccessor "id-1").2.2 = none ∧
    (dc1Server.fsm.ACLTokenGetBySecret "id-1").2.2 = none ∧
    (dc1Server.fsm.ACLPolicyGetByID "id-1").2.2 = none ∧
    checkTokenUUID reservingDeps dc1Server "id-1" = (true, none) ∧
    checkPolicyUUID reservingDeps dc1Server "id-1" = (true, none) :=
  ⟨rfl, rfl, rfl,
   (uuid_available_iff reservingDeps dc1Server "id-1" rfl rfl rfl).2.2
     (by decide) rfl rfl rfl⟩

/-! ## The advertisement -/

lemma updateACLAdvertisement_config (s : Server) :
    (updateACLAdvertisement s).config = s.config := by
  simp only [updateACLAdvertisement]
  split_ifs <;> rfl

lemma updateACLAdvertisement_fsm (s : Server) :
    (updateACLAdvertisement s).fsm = s.fsm := by
  simp only [updateACLAdvertisement]
  split_ifs <;> rfl

lemma updateACLAdvertisement_serfLAN (s : Server) :
    (updateACLAdvertisement s).serfLAN = UpdateSerfTag s.serfLAN "acls" ACLModeEnabled := by
  simp only [updateACLAdvertisement]
  split_ifs <;> rfl

lemma updateACLAdvertisement_serfWAN (s : Server) :
    (updateACLAdvertisement s).serfWAN =
      if s.config.Datacenter = s.config.ACLDatacenter then
        UpdateSerfTag s.serfWAN "acls" ACLModeEnabled
      else s.serfWAN := by
  simp only [updateACLAdvertisement, InACLDatacenter, beq_iff_eq]
  split_ifs <;> rfl

lemma UpdateSerfTag_idem (tags : Tags) (key value : String) :
    UpdateSerfTag (UpdateSerfTag tags key value) key value = UpdateSerfTag tags key value := by
  funext k
  unfold UpdateSerfTag
  split_ifs <;> rfl

/-- C14: `updateACLAdvertisement` sets the LAN tag `acls` to `enabled`
whatever it was; it sets the WAN tag `acls` to `enabled` when
`config.Datacenter == config.ACLDatacenter` and leaves the WAN tags as they
were otherwise; every other tag key, the capability flag, the configuration
and the store are unchanged. -/
theorem updateACLAdvertisement_effect (s : Server) :
    (updateACLAdvertisement s).serfLAN "acls" = some ACLModeEnabled ∧
    (∀ k, k ≠ "acls" → (updateACLAdvertisement s).serfLAN k = s.serfLAN k) ∧
    (s.config.Datacenter = s.config.ACLDatacenter →
      (updateACLAdvertisement s).serfWAN "acls" = some ACLModeEnabled ∧
      ∀ k, k ≠ "acls" → (updateACLAdvertisement s).serfWAN k = s.serfWAN k) ∧
    (s.config.Datacenter ≠ s.config.ACLDatacenter →
      (updateACLAdvertisement s).serfWAN = s.serfWAN) ∧
    (updateACLAdvertisement s).useNewACLs = s.useNewACLs ∧
    (updateACLAdvertisement s).config = s.config ∧
    (updateACLAdvertisement s).fsm = s.fsm := by
  refine ⟨?_, ?_, ?_, ?_, updateACLAdvertisement_useNewACLs s,
    updateACLAdvertisement_config s, updateACLAdvertisement_fsm s⟩
  · rw [updateACLAdvertisement_serfLAN]
    simp [UpdateSerfTag]
  · intro k hk
    rw [updateACLAdvertisement_serfLAN]
    simp [UpdateSerfTag, hk]
  · intro hdc
    rw [updateACLAdvertisement_serfWAN, if_pos hdc]
    refine ⟨by simp [UpdateSerfTag], ?_⟩
    intro k hk
    simp [UpdateSerfTag, hk]
  · intro hdc
    rw [updateACLAdvertisement_serfWAN, if_neg hdc]

/-- C19: applying `updateACLAdvertisement` twice gives the same LAN and WAN
tags as applying it once, for every tag state and datacenter configuration. -/
theorem updateACLAdvertisement_idempotent (s : Server) :
    (updateACLAdvertisement (updateACLAdvertisement s)).serfLAN =
      (updateACLAdvertisement s).serfLAN ∧
    (updateACLAdvertisement (updateACLAdvertisement s)).serfWAN =
      (updateACLAdvertisement s).serfWAN := by
  constructor
  · rw [updateACLAdvertisement_serfLAN (updateACLAdvertisement s),
      updateACLAdvertisement_serfLAN s, UpdateSerfTag_idem]
  · rw [updateACLAdvertisement_serfWAN (updateACLAdvertisement s),
      updateACLAdvertisement_config, updateACLAdvertisement_serfWAN s]
    split_ifs
    · exact UpdateSerfTag_idem _ _ _
    · rfl

/-! ## End-to-end behaviour of one iteration -/

lemma canUpgrade_of_inACLDatacenter (deps : Deps) (s : Server) (o : Observation)
    (h : s.config.Datacenter = s.config.ACLDatacenter) : canUpgrade deps s o = true := by
  simp [canUpgrade, InACLDatacenter, h]

lemma monitorACLModeIter_leader_transition (deps : Deps) (o : Observation) (s : Server)
    (hLeader : o.IsLeader = true) (hCan : canUpgrade deps s o = true)
    (hReady : o.isReadyForConsistentReads = true)
    (hMeets : deps.ServersMeetMinimumVersion o.LANMembers minVersion = true) :
    monitorACLModeIter deps o s =
      ⟨[setUseNewACLs s, initializeACLs deps (setUseNewACLs s),
        updateACLAdvertisement (initializeACLs deps (setUseNewACLs s))],
       Outcome.transitioned⟩ := by
  rw [monitorACLModeIter_leader deps o s hLeader, if_pos ⟨hCan, hReady, hMeets⟩]

/-- C15 fails on the code: a leader of `dc2`, outside the ACL datacenter `dc1`, that
can serve consistent reads and whose LAN members meet the minimum version
makes the transition, and its WAN tag `acls` is still unset afterwards. -/
theorem leader_outside_acl_datacenter_wan_unset :
    leaderObservation.IsLeader = true ∧
    leaderObservation.isReadyForConsistentReads = true ∧
    specDeps.ServersMeetMinimumVersion leaderObservation.LANMembers minVersion = true ∧
    (monitorACLModeIter specDeps leaderObservation dc2Server).outcome =
      Outcome.transitioned ∧
    ((monitorACLModeIter specDeps leaderObservation dc2Server).final dc2Server).serfWAN
      "acls" = none := by
  decide

/-- C15 as amended: for a leader in the ACL datacenter that can serve
consistent reads and whose LAN members all meet the minimum version, one
iteration ends with `useNewACLs` true and the tag `acls` equal to `enabled`
on the LAN and on the WAN. -/
theorem leader_end_to_end (deps : Deps) (o : Observation) (s : Server)
    (hDC : s.config.Datacenter = s.config.ACLDatacenter)
    (hLeader : o.IsLeader = true)
    (hReady : o.isReadyForConsistentReads = true)
    (hMeets : deps.ServersMeetMinimumVersion o.LANMembers minVersion = true) :
    (monitorACLModeIter deps o s).outcome = Outcome.transitioned ∧
    ((monitorACLModeIter deps o s).final s).useNewACLs = true ∧
    ((monitorACLModeIter deps o s).final s).serfLAN "acls" = some ACLModeEnabled ∧
    ((monitorACLModeIter deps o s).final s).serfWAN "acls" = some ACLModeEnabled := by
  rw [monitorACLModeIter_leader_transition deps o s hLeader
    (canUpgrade_of_inACLDatacenter deps s o hDC) hReady hMeets]
  have hcfg : (initializeACLs deps (setUseNewACLs s)).config = s.config := rfl
  refine ⟨rfl, ?_, ?_, ?_⟩
  · simp [IterResult.final, updateACLAdvertisement_useNewACLs, initializeACLs, setUseNewACLs]
  · simp [IterResult.final, updateACLAdvertisement_serfLAN, UpdateSerfTag]
  · simp [IterResult.final, updateACLAdvertisement_serfWAN, hcfg, hDC, UpdateSerfTag]

/-- Witness of the amended C15 on a leader of the ACL datacenter `dc1`. -/
theorem leader_end_to_end_witness :
    dc1Server.config.Datacenter = dc1Server.config.ACLDatacenter ∧
    leaderObservation.IsLeader = true ∧
    leaderObservation.isReadyForConsistentReads = true ∧
    specDeps.ServersMeetMinimumVersion leaderObservation.LANMembers minVersion = true ∧
    (monitorACLModeIter specDeps leaderObservation dc1Server).outcome =
      Outcome.transitioned ∧
    ((monitorACLModeIter specDeps leaderObservation dc1Server).final dc1Server).useNewACLs =
      true ∧
    ((monitorACLModeIter specDeps leaderObservation dc1Server).final dc1Server).serfLAN
      "acls" = some ACLModeEnabled ∧
    ((monitorACLModeIter specDeps leaderObservation dc1Server).final dc1Server).serfWAN
      "acls" = some ACLModeEnabled :=
  ⟨rfl, rfl, rfl, by decide,
   leader_end_to_end specDeps leaderObservation dc1Server rfl rfl rfl (by decide)⟩

lemma monitorACLModeIter_not_leader (deps : Deps) (o : Observation) (s : Server)
    (hFollower : o.IsLeader = false) :
    monitorACLModeIter deps o s =
      if canUpgrade deps s o = true ∧
          leaderACLs deps o.raftLeader o.LANMembers = some ACLModeEnabled then
        ⟨[setUseNewACLs s, updateACLAdvertisement (setUseNewACLs s)], Outcome.transitioned⟩
      else waitOrShutdown o := by
  by_cases hCan : canUpgrade deps s o = true
  · rw [monitorACLModeIter_follower deps o s hFollower hCan]
    simp [hCan]
  · unfold monitorACLModeIter
    simp [hCan]

lemma leaderACLs_of_no_usable_member (deps : Deps) (leader : String) (lan : List Member)
    (h : ∀ m ∈ lan, ∀ parts, deps.IsConsulServer m = some parts →
      parts.Status ≠ MemberStatus.StatusAlive) :
    leaderACLs deps leader lan = none := by
  have hfind : lan.find? (isLeaderMember deps leader) = none := by
    rw [List.find?_eq_none]
    intro m hm
    unfold isLeaderMember
    cases hp : deps.IsConsulServer m with
    | none => simp
    | some parts => simp [h m hm parts hp]
  simp [leaderACLs, hfind]

lemma waitOrShutdown_final (o : Observation) (s : Server) :
    (waitOrShutdown o).final s = s := by
  unfold waitOrShutdown IterResult.final
  split_ifs <;> rfl

/-- C16 fails on the code: a leader of the ACL datacenter that can serve consistent
reads and sees no member at all, on the WAN and on the LAN, makes the
transition: `useNewACLs` is set and the advertisement is published. -/
theorem leader_transitions_on_empty_membership :
    emptyMembershipObservation.WANMembers = [] ∧
    emptyMembershipObservation.LANMembers = [] ∧
    (monitorACLModeIter specDeps emptyMembershipObservation dc1Server).outcome =
      Outcome.transitioned ∧
    ((monitorACLModeIter specDeps emptyMembershipObservation dc1Server).final
      dc1Server).useNewACLs = true ∧
    ((monitorACLModeIter specDeps emptyMembershipObservation dc1Server).final
      dc1Server).events =
      [Event.setUseNewACLs, Event.initializeACLs, Event.updateACLAdvertisement] := by
  decide

/-- C16 as amended: for a node that is not the leader, if the LAN membership
yields no usable member (no member is a valid server with status alive, as
when the list is empty), one iteration performs no transition: no
state-changing call is made, so `useNewACLs` is not set and no advertisement
is published. -/
theorem follower_holds_off_without_members (deps : Deps) (o : Observation) (s : Server)
    (hFollower : o.IsLeader = false)
    (hNoUsable : ∀ m ∈ o.LANMembers, ∀ parts, deps.IsConsulServer m = some parts →
      parts.Status ≠ MemberStatus.StatusAlive) :
    (monitorACLModeIter deps o s).states = [] ∧
    (monitorACLModeIter deps o s).final s = s ∧
    (monitorACLModeIter deps o s).outcome ≠ Outcome.transitioned := by
  have hl : ¬ (canUpgrade deps s o = true ∧
      leaderACLs deps o.raftLeader o.LANMembers = some ACLModeEnabled) := by
    rintro ⟨_, h⟩
    rw [leaderACLs_of_no_usable_member deps o.raftLeader o.LANMembers hNoUsable] at h
    exact Option.noConfusion h
  rw [monitorACLModeIter_not_leader deps o s hFollower, if_neg hl]
  exact ⟨waitOrShutdown_states o, waitOrShutdown_final o s, waitOrShutdown_outcome_ne o⟩

/-- Witness of the amended C16: a follower that sees no member makes no state-changing
call. -/
theorem follower_holds_off_without_members_witness :
    emptyFollowerObservation.IsLeader = false ∧
    emptyFollowerObservation.LANMembers = [] ∧
    (monitorACLModeIter specDeps emptyFollowerObservation dc1Server).states = [] ∧
    (monitorACLModeIter specDeps emptyFollowerObservation dc1Server).outcome ≠
      Outcome.transitioned :=
  ⟨rfl, rfl,
   (follower_holds_off_without_members specDeps emptyFollowerObservation dc1Server rfl
      (fun _ hm => absurd hm (List.not_mem_nil _))).1,
   (follower_holds_off_without_members specDeps emptyFollowerObservation dc1Server rfl
      (fun _ hm => absurd hm (List.not_mem_nil _))).2.2⟩

/-- C17: for every secret, if the by-secret query returns an error `e`,
`ResolveIdentityFromToken` returns `(true, nil, e)` whatever the datacenter
configuration and whatever the other queries do; and, on its own, for every
policy ID, if the by-ID query returns an error `e`, `ResolvePolicyFromID`
returns `e` as its error, with no policy other than the one the query gave. -/
theorem resolution_propagates_store_errors (s : Server) :
    (∀ (secret : String) (e : Error),
      (s.fsm.ACLTokenGetBySecret secret).2.2 = some e →
        ResolveIdentityFromToken s secret = (true, none, some e)) ∧
    (∀ (policyID : String) (e : Error),
      (s.fsm.ACLPolicyGetByID policyID).2.2 = some e →
        (ResolvePolicyFromID s policyID).2.2 = some e ∧
        ResolvePolicyFromID s policyID =
          (true, (s.fsm.ACLPolicyGetByID policyID).2.1, some e)) := by
  constructor
  · intro secret e hSecret
    unfold ResolveIdentityFromToken
    rcases hq : s.fsm.ACLTokenGetBySecret secret with ⟨idx, tok, err⟩
    rw [hq] at hSecret
    simp only at hSecret
    subst hSecret
    cases tok <;> rfl
  · intro policyID e hPolicy
    unfold ResolvePolicyFromID
    rcases hq : s.fsm.ACLPolicyGetByID policyID with ⟨idx, pol, err⟩
    rw [hq] at hPolicy
    simp only at hPolicy
    subst hPolicy
    exact ⟨rfl, rfl⟩

/-- Witness of C17, outside the ACL datacenter: on a store where only the by-secret
query fails the identity resolution returns `(true, nil, err)`, and on a store
where only the by-ID query fails the policy resolution returns the error. -/
theorem resolution_propagates_store_errors_witness :
    InACLDatacenter { dc2Server with fsm := secretFailingState } = false ∧
    (secretFailingState.ACLPolicyGetByID "policy-1").2.2 = none ∧
    ResolveIdentityFromToken { dc2Server with fsm := secretFailingState } "secret-1" =
      (true, none, some "store unavailable") ∧
    (policyFailingState.ACLTokenGetBySecret "secret-1").2.2 = none ∧
    (ResolvePolicyFromID { dc2Server with fsm := policyFailingState } "policy-1").2.2 =
      some "store unavailable" :=
  ⟨by decide, rfl,
   (resolution_propagates_store_errors { dc2Server with fsm := secretFailingState }).1
     "secret-1" "store unavailable" rfl,
   rfl,
   ((resolution_propagates_store_errors { dc2Server with fsm := policyFailingState }).2
     "policy-1" "store unavailable" rfl).1⟩

/-! ## Shutdown -/

lemma monitorACLModeLoop_cases (deps : Deps) (obs : List Observation) (s : Server) :
    ((monitorACLModeLoop deps s obs).1 = [] ∧
      (monitorACLModeLoop deps s obs).2 ≠ some Outcome.transitioned) ∨
    ((monitorACLModeLoop deps s obs).2 = some Outcome.transitioned ∧
      ((monitorACLModeLoop deps s obs).1 =
          [setUseNewACLs s, initializeACLs deps (setUseNewACLs s),
            updateACLAdvertisement (initializeACLs deps (setUseNewACLs s))] ∨
        (monitorACLModeLoop deps s obs).1 =
          [setUseNewACLs s, updateACLAdvertisement (setUseNewACLs s)])) := by
  induction obs with
  | nil => left; simp [monitorACLModeLoop]
  | cons o os ih =>
    by_cases hout : (monitorACLModeIter deps o s).outcome = Outcome.next
    · have hst := monitorACLModeIter_states_of_next deps o s hout
      rw [monitorACLModeLoop_cons_next deps o os s hout]
      simp only [hst, List.nil_append, IterResult.final, List.getLast?_nil, Option.getD_none]
      exact ih
    · rw [monitorACLModeLoop_cons_stop deps o os s hout]
      rcases monitorACLModeIter_cases deps o s with hc | hc | hc
      · left
        rw [hc]
        refine ⟨waitOrShutdown_states o, ?_⟩
        intro h
        exact waitOrShutdown_outcome_ne o (Option.some.inj h)
      · right; rw [hc]; exact ⟨rfl, Or.inl rfl⟩
      · right; rw [hc]; exact ⟨rfl, Or.inr rfl⟩

lemma monitorACLModeIter_shutdown_irrelevant (deps : Deps) (o : Observation) (s : Server)
    (b : Bool) :
    (monitorACLModeIter deps { o with shutdown := b } s).states =
      (monitorACLModeIter deps o s).states := by
  have hcan : canUpgrade deps s { o with shutdown := b } = canUpgrade deps s o := rfl
  unfold monitorACLModeIter
  simp only [hcan]
  split_ifs <;> simp [waitOrShutdown_states]

/-- C18: a run of `monitorACLMode` that returns because of the shutdown signal
has made no state-changing call (no `Set(true)`, no `initializeACLs`, no
advertisement); an iteration ends by shutdown only through the final wait,
with the signal present and nothing changed, and the signal has no influence
on what an iteration changes; a run that makes a state-changing call, so every
run that sets `useNewACLs`, ends by the transition with `useNewACLs` true,
the advertisement published and the LAN tag `acls` equal to `enabled`. -/
theorem shutdown_leaves_no_partial_transition (deps : Deps) (s : Server)
    (obs : List Observation) :
    ((monitorACLMode deps s obs).2 = some Outcome.shutdown →
      (monitorACLMode deps s obs).1 = [s]) ∧
    (∀ (o : Observation) (s' : Server),
      (monitorACLModeIter deps o s').outcome = Outcome.shutdown →
        o.shutdown = true ∧ (monitorACLModeIter deps o s').states = []) ∧
    (∀ (o : Observation) (s' : Server) (b : Bool),
      (monitorACLModeIter deps { o with shutdown := b } s').states =
        (monitorACLModeIter deps o s').states) ∧
    ((monitorACLMode deps s obs).1 ≠ [s] →
      (monitorACLMode deps s obs).2 = some Outcome.transitioned ∧
      ∃ last, (monitorACLMode deps s obs).1.getLast? = some last ∧
        last.useNewACLs = true ∧
        last.serfLAN "acls" = some ACLModeEnabled ∧
        Event.setUseNewACLs ∈ last.events ∧
        Event.updateACLAdvertisement ∈ last.events) := by
  refine ⟨?_, ?_, monitorACLModeIter_shutdown_irrelevant deps, ?_⟩
  · intro h
    unfold monitorACLMode at h ⊢
    rcases monitorACLModeLoop_cases deps obs s with ⟨hst, _⟩ | ⟨hout, _⟩
    · simp [hst]
    · simp only at h
      rw [hout] at h
      exact absurd (Option.some.inj h) (by decide)
  · intro o s' h
    rcases monitorACLModeIter_cases deps o s' with hc | hc | hc
    · rw [hc] at h ⊢
      refine ⟨?_, waitOrShutdown_states o⟩
      unfold waitOrShutdown at h
      by_contra hsh
      rw [if_neg hsh] at h
      exact Outcome.noConfusion h
    · rw [hc] at h; exact Outcome.noConfusion h
    · rw [hc] at h; exact Outcome.noConfusion h
  · intro h
    unfold monitorACLMode at h ⊢
    rcases monitorACLModeLoop_cases deps obs s with ⟨hst, _⟩ | ⟨hout, hst | hst⟩
    · exact absurd (by simp [hst]) h
    · refine ⟨hout, updateACLAdvertisement (initializeACLs deps (setUseNewACLs s)), ?_, ?_, ?_,
        ?_, ?_⟩
      · simp [hst]
      · simp [updateACLAdvertisement_useNewACLs, initializeACLs, setUseNewACLs]
      · simp [updateACLAdvertisement_serfLAN, UpdateSerfTag]
      · simp [updateACLAdvertisement_events, initializeACLs, setUseNewACLs]
      · simp [updateACLAdvertisement_events]
    · refine ⟨hout, updateACLAdvertisement (setUseNewACLs s), ?_, ?_, ?_, ?_, ?_⟩
      · simp [hst]
      · simp [updateACLAdvertisement_useNewACLs, setUseNewACLs]
      · simp [updateACLAdvertisement_serfLAN, UpdateSerfTag]
      · simp [updateACLAdvertisement_events, setUseNewACLs]
      · simp [updateACLAdvertisement_events]

/-- Witness of C18: a leader that is not ready waits once, then the shutdown signal
arrives; the run has made no state-changing call. -/
theorem shutdown_leaves_no_partial_transition_witness :
    (monitorACLMode specDeps dc1Server [notReadyObservation, shutdownObservation]).2 =
      some Outcome.shutdown ∧
    (monitorACLMode specDeps dc1Server [notReadyObservation, shutdownObservation]).1 =
      [dc1Server] :=
  ⟨by decide,
   (shutdown_leaves_no_partial_transition specDeps dc1Server
      [notReadyObservation, shutdownObservation]).1 (by decide)⟩

/-! ## Followers -/

/-- C20: in an iteration run by a node that is not the leader `initializeACLs`
is never run: in every state the iteration goes through the store is the
one it started with and the calls made so far do not include
`initializeACLs`; an iteration of such a node that ends by the transition
consists of exactly `useNewACLs.Set(true)` followed by
`updateACLAdvertisement`, after which `monitorACLMode` returns whatever
observations would follow. -/
theorem follower_never_initializes (deps : Deps) (o : Observation) (s : Server)
    (hFollower : o.IsLeader = false) :
    (∀ st ∈ (monitorACLModeIter deps o s).states,
      st.fsm = s.fsm ∧
      ∃ calls, st.events = s.events ++ calls ∧ Event.initializeACLs ∉ calls) ∧
    ((monitorACLModeIter deps o s).outcome = Outcome.transitioned →
      (monitorACLModeIter deps o s).states =
        [setUseNewACLs s, updateACLAdvertisement (setUseNewACLs s)] ∧
      ((monitorACLModeIter deps o s).final s).events =
        s.events ++ [Event.setUseNewACLs, Event.updateACLAdvertisement] ∧
      ∀ os : List Observation,
        monitorACLMode deps s (o :: os) =
          (s :: (monitorACLModeIter deps o s).states, some Outcome.transitioned)) := by
  constructor
  · rw [monitorACLModeIter_not_leader deps o s hFollower]
    split_ifs
    · intro st hst
      simp only [List.mem_cons, List.mem_singleton, List.not_mem_nil, or_false] at hst
      rcases hst with rfl | rfl
      · exact ⟨rfl, [Event.setUseNewACLs], rfl, by decide⟩
      · refine ⟨by rw [updateACLAdvertisement_fsm]; rfl,
          [Event.setUseNewACLs, Event.updateACLAdvertisement], ?_, by decide⟩
        simp [updateACLAdvertisement_events, setUseNewACLs]
    · intro st hst
      rw [waitOrShutdown_states] at hst
      exact absurd hst (List.not_mem_nil _)
  · intro hOut
    have hne : (monitorACLModeIter deps o s).outcome ≠ Outcome.next := by
      rw [hOut]; exact fun h => Outcome.noConfusion h
    have hiter : monitorACLModeIter deps o s =
        ⟨[setUseNewACLs s, updateACLAdvertisement (setUseNewACLs s)],
          Outcome.transitioned⟩ := by
      rw [monitorACLModeIter_not_leader deps o s hFollower] at hOut ⊢
      split_ifs with hcond
      · rfl
      · rw [if_neg hcond] at hOut
        exact absurd hOut (waitOrShutdown_outcome_ne o)
    refine ⟨by rw [hiter], ?_, ?_⟩
    · rw [hiter]
      simp [IterResult.final, updateACLAdvertisement_events, setUseNewACLs]
    · intro os
      unfold monitorACLMode
      rw [monitorACLModeLoop_cons_stop deps o os s hne, hOut]

/-- Witness of C20: the follower of `dc1` whose leader advertises `enabled` makes two
calls, `Set(true)` and `updateACLAdvertisement`. -/
theorem follower_never_initializes_witness :
    followerObservation.IsLeader = false ∧
    (monitorACLModeIter specDeps followerObservation dc1Server).outcome =
      Outcome.transitioned ∧
    ((monitorACLModeIter specDeps followerObservation dc1Server).final dc1Server).events =
      dc1Server.events ++ [Event.setUseNewACLs, Event.updateACLAdvertisement] :=
  ⟨rfl, by decide,
   ((follower_never_initializes specDeps followerObservation dc1Server rfl).2
      (by decide)).2.1⟩

end Consul
